import Mathlib

/-!
Verification of the SecureClaw audit-runner core: a shallow embedding of
the finding normalizer (`packages/audit-runner/src/parser.ts`), the risk
scorer, the audit differ (`differ.ts`), the reporter's finding upsert
(`reporter.ts`), the alerter (`alerter.ts`) and the CLI exit-code logic
(`bin/audit.ts`), together with proofs of the spec's testable properties.

Strings are modelled as Lean `String` (sequences of characters); the
JavaScript regex `\s` is modelled by `Char.isWhitespace`, which agrees on
the ASCII whitespace relevant here.
-/

set_option maxRecDepth 8000

namespace SecureClaw

/-- `source` field of a normalized finding: `"secureclaw" | "custom"`. -/
inductive Source where
  | secureclaw
  | custom
deriving DecidableEq, Repr

/-- `FindingSeverity = "critical" | "high" | "medium" | "low" | "info"`. -/
inductive Severity where
  | critical
  | high
  | medium
  | low
  | info
deriving DecidableEq, Repr

/-- The string a `Source` interpolates to in template literals. -/
def Source.str : Source → String
  | .secureclaw => "secureclaw"
  | .custom => "custom"

/-- `NormalizedFinding` from `types.ts`.  The TypeScript declaration types
`owaspCategory` as the 10-value union `OWASPCategory`, but the parser
produces it through an unchecked `as` cast, so at runtime it is an
arbitrary string; we model the runtime value.  `owaspName` is produced by
an object lookup that yields `undefined` off the table, hence `Option`. -/
structure NormalizedFinding where
  checkId : String
  checkName : String
  source : Source
  owaspCategory : String
  owaspName : Option String
  category : String
  severity : Severity
  passed : Bool
  evidence : Option String
  remediation : Option String
deriving DecidableEq, Repr

/-- `makeFindingKey` from `differ.ts`: `` `${f.source}::${f.checkId}` ``. -/
def makeFindingKey (f : NormalizedFinding) : String :=
  f.source.str ++ "::" ++ f.checkId

/-- `PreviousAuditFindings` from `differ.ts`. -/
structure PreviousAuditFindings where
  auditId : String
  findings : List NormalizedFinding
  hostRiskScore : Int
deriving Repr

/-- `AuditDiff` from `types.ts`. -/
structure AuditDiff where
  auditId : String
  previousAuditId : Option String
  newFindings : List NormalizedFinding
  resolvedFindings : List NormalizedFinding
  persistingFindings : List NormalizedFinding
  riskScoreDelta : Int
  newCriticals : List NormalizedFinding
deriving Repr

/-- `AuditDiffer.compute` from `differ.ts`.  The push-loops over
`currentFailed` and `previousFailed` are rendered as the equivalent
`List.filter`s; JavaScript `Set.has` over the key sets is list
membership of the mapped keys. -/
def compute (currentAuditId : String) (currentFindings : List NormalizedFinding)
    (currentRiskScore : Int) (previous : Option PreviousAuditFindings) : AuditDiff :=
  let currentFailed := currentFindings.filter (fun f => !f.passed)
  match previous with
  | none =>
    { auditId := currentAuditId
      previousAuditId := none
      newFindings := currentFailed
      resolvedFindings := []
      persistingFindings := []
      riskScoreDelta := currentRiskScore
      newCriticals := currentFailed.filter (fun f => decide (f.severity = Severity.critical)) }
  | some prev =>
    let previousFailed := prev.findings.filter (fun f => !f.passed)
    let currentKeys := currentFailed.map makeFindingKey
    let previousKeys := previousFailed.map makeFindingKey
    let newFindings :=
      currentFailed.filter (fun f => !(previousKeys.contains (makeFindingKey f)))
    let persistingFindings :=
      currentFailed.filter (fun f => previousKeys.contains (makeFindingKey f))
    let resolvedFindings :=
      previousFailed.filter (fun f => !(currentKeys.contains (makeFindingKey f)))
    { auditId := currentAuditId
      previousAuditId := some prev.auditId
      newFindings := newFindings
      resolvedFindings := resolvedFindings
      persistingFindings := persistingFindings
      riskScoreDelta := currentRiskScore - prev.hostRiskScore
      newCriticals := newFindings.filter (fun f => decide (f.severity = Severity.critical)) }

/-- `SecureClawFinding` from `types.ts` (the upstream scanner's raw finding). -/
structure SecureClawFinding where
  id : String
  name : String
  category : String
  severity : Severity
  passed : Bool
  evidence : Option String
  remediation : Option String
  owaspMapping : Option String
  module : Option String
deriving DecidableEq, Repr

/-- `CustomCheckResult` from `types.ts` (a custom check script's JSON). -/
structure CustomCheckResult where
  checkId : String
  checkName : String
  category : String
  owaspCategory : String
  passed : Bool
  severity : Severity
  evidence : Option String
  remediation : Option String
deriving DecidableEq, Repr

/-- `SecureClawOutput` from `types.ts` (the scanner's JSON envelope). -/
structure SecureClawOutput where
  version : String
  timestamp : String
  hostname : String
  checksRun : Int
  checksPassed : Int
  checksFailed : Int
  findings : List SecureClawFinding
  riskScore : Int
deriving Repr

/-- `RawAuditOutput` from `types.ts`. -/
structure RawAuditOutput where
  secureclaw : Option SecureClawOutput
  customChecks : List CustomCheckResult
  errors : List String
deriving Repr

/-- The 10 valid OWASP ASI category codes of the `OWASPCategory` union. -/
def OWASP_CATEGORIES : List String :=
  ["ASI01", "ASI02", "ASI03", "ASI04", "ASI05",
   "ASI06", "ASI07", "ASI08", "ASI09", "ASI10"]

/-- `OWASP_NAMES` from `types.ts`; an object lookup, `none` off the table. -/
def OWASP_NAMES (c : String) : Option String :=
  if c = "ASI01" then some "Goal Hijack / Prompt Injection"
  else if c = "ASI02" then some "Sensitive Information Disclosure"
  else if c = "ASI03" then some "Misconfigured Secrets & PII Leakage"
  else if c = "ASI04" then some "Insecure Code Execution"
  else if c = "ASI05" then some "Model Denial of Service"
  else if c = "ASI06" then some "Cognitive File & Identity Tampering"
  else if c = "ASI07" then some "Supply Chain Compromise"
  else if c = "ASI08" then some "Insecure Tool Use"
  else if c = "ASI09" then some "Unsafe Output Handling"
  else if c = "ASI10" then some "Excessive Agency / Privilege Escalation"
  else none

/-- `SECURECLAW_OWASP_MAP` from `parser.ts`: check ID → ASI category. -/
def SECURECLAW_OWASP_MAP (id : String) : Option String :=
  if id = "SC-001" ∨ id = "SC-002" ∨ id = "SC-003" ∨ id = "SC-004" ∨ id = "SC-005" then
    some "ASI01"
  else if id = "SC-010" ∨ id = "SC-011" ∨ id = "SC-012" ∨ id = "SC-013" then
    some "ASI02"
  else if id = "SC-020" ∨ id = "SC-021" ∨ id = "SC-022" ∨ id = "SC-023" ∨
      id = "SC-024" ∨ id = "SC-025" then
    some "ASI03"
  else if id = "SC-030" ∨ id = "SC-031" ∨ id = "SC-032" then
    some "ASI04"
  else if id = "SC-035" ∨ id = "SC-036" then
    some "ASI05"
  else if id = "SC-040" ∨ id = "SC-041" ∨ id = "SC-042" ∨ id = "SC-043" ∨
      id = "SC-044" ∨ id = "SC-045" then
    some "ASI06"
  else if id = "SC-050" ∨ id = "SC-051" ∨ id = "SC-052" ∨ id = "SC-053" ∨
      id = "SC-054" then
    some "ASI07"
  else if id = "SC-060" ∨ id = "SC-061" ∨ id = "SC-062" then
    some "ASI08"
  else if id = "SC-070" ∨ id = "SC-071" then
    some "ASI09"
  else if id = "SC-080" ∨ id = "SC-081" ∨ id = "SC-082" then
    some "ASI10"
  else none

/-- `CATEGORY_OWASP_MAP` from `parser.ts`: normalized category string → ASI. -/
def CATEGORY_OWASP_MAP (k : String) : Option String :=
  if k = "prompt_injection" ∨ k = "goal_hijack" ∨ k = "injection" ∨ k = "cron_injection" then
    some "ASI01"
  else if k = "information_disclosure" ∨ k = "data_leakage" ∨ k = "pii_exposure" then
    some "ASI02"
  else if k = "secrets_exposure" ∨ k = "credential_exposure" ∨ k = "config_exposure" ∨
      k = "api_key_exposure" ∨ k = "pii_leakage" ∨ k = "gateway_config" ∨
      k = "gateway_exposure" then
    some "ASI03"
  else if k = "code_execution" ∨ k = "rce" ∨ k = "shell_injection" then
    some "ASI04"
  else if k = "dos" ∨ k = "resource_exhaustion" then
    some "ASI05"
  else if k = "file_permissions" ∨ k = "cognitive_file" ∨ k = "identity_tampering" ∨
      k = "soul_file" ∨ k = "memory_file" then
    some "ASI06"
  else if k = "supply_chain" ∨ k = "clawhavoc" ∨ k = "skill_validation" then
    some "ASI07"
  else if k = "tool_use" ∨ k = "tool_abuse" then
    some "ASI08"
  else if k = "unsafe_output" ∨ k = "xss" then
    some "ASI09"
  else if k = "privilege_escalation" ∨ k = "excessive_agency" ∨ k = "auth" then
    some "ASI10"
  else none

/-- `EVIDENCE_MAX_CHARS = 500` from `parser.ts`. -/
def EVIDENCE_MAX_CHARS : Nat := 500

/-- `truncateEvidence` from `parser.ts`.  Note `if (!evidence)` in the
source is a JavaScript falsiness test, so the empty string also maps to
`undefined`. -/
def truncateEvidence : Option String → Option String
  | none => none
  | some e =>
    if e = "" then none
    else if e.length ≤ EVIDENCE_MAX_CHARS then some e
    else some (e.take EVIDENCE_MAX_CHARS ++ "…[truncated]")

/-- `owaspMapping.toUpperCase().replace(/\s/g, "")` from `parser.ts`,
rendered on the character sequence. -/
def normalizeMapping (m : String) : String :=
  String.mk ((m.data.map Char.toUpper).filter (fun c => !c.isWhitespace))

/-- `(finding.category ?? "").toLowerCase().replace(/[- ]/g, "_")` from
`parser.ts`, rendered on the character sequence. -/
def normalizeCategoryKey (c : String) : String :=
  String.mk ((c.data.map Char.toLower).map
    (fun ch => if ch = '-' ∨ ch = ' ' then '_' else ch))

/-- `inferOWASPFromSecureClawFinding` from `parser.ts`.  The
`owaspMapping` branch only checks `startsWith("ASI")` and `length <= 5`
before an unchecked `as OWASPCategory` cast, so the runtime result is a
string that may fall outside the 10 valid codes.  `if (finding.owaspMapping)`
is a falsiness test (absent or empty string both skip the branch);
`startsWith` is rendered as the character-sequence prefix test. -/
def inferOWASPFromSecureClawFinding (finding : SecureClawFinding) : String :=
  match SECURECLAW_OWASP_MAP finding.id with
  | some fromId => fromId
  | none =>
    let fromMapping : Option String :=
      match finding.owaspMapping with
      | none => none
      | some m =>
        if m = "" then none
        else
          let normalized := normalizeMapping m
          if "ASI".data.isPrefixOf normalized.data ∧ normalized.length ≤ 5 then
            some normalized
          else none
    match fromMapping with
    | some c => c
    | none =>
      let categoryKey := normalizeCategoryKey finding.category
      match CATEGORY_OWASP_MAP categoryKey with
      | some c => c
      | none => "ASI03"

/-- `normalizeSecureClawFinding` from `parser.ts`. -/
def normalizeSecureClawFinding (finding : SecureClawFinding) : NormalizedFinding :=
  let owaspCategory := inferOWASPFromSecureClawFinding finding
  { checkId := finding.id
    checkName := finding.name
    source := Source.secureclaw
    owaspCategory := owaspCategory
    owaspName := OWASP_NAMES owaspCategory
    category := finding.category
    severity := finding.severity
    passed := finding.passed
    evidence := truncateEvidence finding.evidence
    remediation := finding.remediation }

/-- `normalizeCustomCheckResult` from `parser.ts`. -/
def normalizeCustomCheckResult (result : CustomCheckResult) : NormalizedFinding :=
  { checkId := result.checkId
    checkName := result.checkName
    source := Source.custom
    owaspCategory := result.owaspCategory
    owaspName := OWASP_NAMES result.owaspCategory
    category := result.category
    severity := result.severity
    passed := result.passed
    evidence := truncateEvidence result.evidence
    remediation := result.remediation }

/-- `computeRiskScore` from `parser.ts`. -/
def computeRiskScore (findings : List NormalizedFinding) : Nat :=
  let failed := findings.filter (fun f => !f.passed)
  let score :=
    (failed.filter (fun f => decide (f.severity = Severity.critical))).length * 25 +
    (failed.filter (fun f => decide (f.severity = Severity.high))).length * 10 +
    (failed.filter (fun f => decide (f.severity = Severity.medium))).length * 3 +
    (failed.filter (fun f => decide (f.severity = Severity.low))).length * 1
  min 100 score

/-- `countBySeverity` from `parser.ts` (counts among failed findings). -/
def countBySeverity (findings : List NormalizedFinding) (s : Severity) : Nat :=
  let failed := findings.filter (fun f => !f.passed)
  (failed.filter (fun f => decide (f.severity = s))).length

/-- `ResultParser.parse` from `parser.ts`: scanner findings first, then
custom-check results, all normalized; both passed and failed retained. -/
def parse (raw : RawAuditOutput) : List NormalizedFinding :=
  (match raw.secureclaw with
   | some sc => sc.findings.map normalizeSecureClawFinding
   | none => []) ++
  raw.customChecks.map normalizeCustomCheckResult

/-- `ResultParser.getTotalChecksRun` from `parser.ts`. -/
def getTotalChecksRun (raw : RawAuditOutput) : Int :=
  (match raw.secureclaw with
   | some sc => sc.checksRun
   | none => 0) +
  raw.customChecks.length

/-- `ResultParser.getTotalChecksPassed` from `parser.ts`. -/
def getTotalChecksPassed (raw : RawAuditOutput) : Int :=
  (match raw.secureclaw with
   | some sc => sc.checksPassed
   | none => 0) +
  (raw.customChecks.filter (fun c => c.passed)).length

/-- `failedFindings` from `parser.ts`. -/
def failedFindings (findings : List NormalizedFinding) : List NormalizedFinding :=
  findings.filter (fun f => !f.passed)

/-- The aggregate fields of `AuditSummary` that `runAudit` in `index.ts`
computes from the raw output and the normalized findings (lines 99-118);
timing and version fields are environment inputs and are omitted. -/
structure SummaryAggregates where
  checksRun : Int
  checksPassed : Int
  checksFailed : Int
  criticalCount : Nat
  highCount : Nat
  mediumCount : Nat
  lowCount : Nat
  infoCount : Nat
  hostRiskScore : Nat
deriving Repr

/-- The aggregate computation of `runAudit` (`index.ts`): `checksRun` and
`checksPassed` via the `ResultParser` totals over the raw output,
`checksFailed` as their difference, severity counts via `countBySeverity`
and `hostRiskScore` via `computeRiskScore`, both over the parsed findings. -/
def buildSummary (raw : RawAuditOutput) : SummaryAggregates :=
  let findings := parse raw
  { checksRun := getTotalChecksRun raw
    checksPassed := getTotalChecksPassed raw
    checksFailed := getTotalChecksRun raw - getTotalChecksPassed raw
    criticalCount := countBySeverity findings Severity.critical
    highCount := countBySeverity findings Severity.high
    mediumCount := countBySeverity findings Severity.medium
    lowCount := countBySeverity findings Severity.low
    infoCount := countBySeverity findings Severity.info
    hostRiskScore := computeRiskScore findings }

/-- `UpsertFindingBody` from `reporter.ts` (the spread of the finding's
fields is kept as a nested `finding`). -/
structure UpsertFindingBody where
  finding : NormalizedFinding
  auditId : String
  isNew : Bool
  status : String
  firstSeenAt : Int
  lastSeenAt : Int
deriving Repr

/-- The body built for one finding inside `ConvexReporter.upsertFindings`
(`reporter.ts`): `isNew` tests membership of the finding's `checkId` in
the set of `checkId`s of `diff.newFindings` (the `source` is not part of
that set). -/
def mkUpsertBody (auditId : String) (diff : AuditDiff) (now : Int)
    (f : NormalizedFinding) : UpsertFindingBody :=
  let newCheckIds := diff.newFindings.map (fun g => g.checkId)
  { finding := f
    auditId := auditId
    isNew := newCheckIds.contains f.checkId
    status := "open"
    firstSeenAt := now
    lastSeenAt := now }

/-- The full body list of `ConvexReporter.upsertFindings`: the failing
findings, each mapped to its upsert body. -/
def upsertFindingBodies (auditId : String) (findings : List NormalizedFinding)
    (diff : AuditDiff) (now : Int) : List UpsertFindingBody :=
  (findings.filter (fun f => !f.passed)).map (mkUpsertBody auditId diff now)

/-- `SecurityEventPayload` fields posted by the alerter (`alerter.ts`). -/
structure SecurityEvent where
  eventType : String
  severity : Severity
  source : String
  sourceId : Option String
  message : String
deriving DecidableEq, Repr

/-- `[...new Set(xs)]` in JavaScript: deduplication keeping the first
occurrence of each element, in order. -/
def dedupFirst (xs : List String) : List String :=
  xs.foldl (fun acc x => if acc.contains x then acc else acc ++ [x]) []

/-- `buildAlertMessage` from `alerter.ts`. -/
def buildAlertMessage (criticals : List NormalizedFinding) (auditId : String) : String :=
  let categories := String.intercalate ", " (dedupFirst (criticals.map (fun f => f.owaspCategory)))
  let checkNames := String.intercalate ", " (criticals.map (fun f => f.checkName))
  "🚨 " ++ toString criticals.length ++ " new CRITICAL finding" ++
    (if criticals.length ≠ 1 then "s" else "") ++
    " in audit " ++ auditId ++ " — " ++
    "Categories: " ++ categories ++ " — " ++
    "Checks: " ++ checkNames.take 200

/-- The events posted by `alertOnCriticals` (`alerter.ts`): none when
`diff.newCriticals` is empty, otherwise exactly one batched
`new_critical_finding` event (the HTTP send and its non-fatal error
handling are effectful and carry no decision logic). -/
def alertEvents (diff : AuditDiff) : List SecurityEvent :=
  if diff.newCriticals.length = 0 then []
  else
    [{ eventType := "new_critical_finding"
       severity := Severity.critical
       source := "secureclaw"
       sourceId := some diff.auditId
       message := buildAlertMessage diff.newCriticals diff.auditId }]

/-- The exit-code logic of `main` in `bin/audit.ts`: a thrown error from
`runAudit` exits 1; otherwise new criticals outside dry-run exit 2;
otherwise `main` returns and the process exits 0 — the non-fatal `errors`
list is printed but never changes the exit code. -/
def cliExitCode (fatalError : Bool) (dryRun : Bool)
    (newCriticalsCount : Nat) (errorCount : Nat) : Nat :=
  if fatalError then 1
  else if newCriticalsCount > 0 ∧ ¬dryRun then 2
  else 0

/-- The per-severity weights of §4.2: critical=25, high=10, medium=3,
low=1, info=0. -/
def severityWeight : Severity → Nat
  | .critical => 25
  | .high => 10
  | .medium => 3
  | .low => 1
  | .info => 0

/-- A concrete failing critical finding, for concrete evaluations. -/
def sampleCritical : NormalizedFinding :=
  { checkId := "SC-020"
    checkName := "API key exposure"
    source := Source.secureclaw
    owaspCategory := "ASI03"
    owaspName := OWASP_NAMES "ASI03"
    category := "api_key_exposure"
    severity := Severity.critical
    passed := false
    evidence := none
    remediation := none }

/-- The same finding under the `custom` source (same `checkId`). -/
def sampleCriticalCustom : NormalizedFinding :=
  { sampleCritical with source := Source.custom }

/-- A raw upstream finding whose ID is off the ID table and whose
`owaspMapping` is `"ASI99"`: it passes the parser's shape test
(`startsWith("ASI")`, length ≤ 5) without being a valid category. -/
def unmappedFinding : SecureClawFinding :=
  { id := "SC-999"
    name := "Experimental check"
    category := "unknown_category"
    severity := Severity.high
    passed := false
    evidence := none
    remediation := none
    owaspMapping := some "ASI99"
    module := none }

/-- A raw output whose scanner envelope reports 55 checks run and 50
passed while carrying no findings at all (this is exactly the shape of
`mockSecureClawOutput` in `runner.ts`). -/
def sampleEnvelope : RawAuditOutput :=
  { secureclaw := some
      { version := "2.1"
        timestamp := "2026-01-01T00:00:00Z"
        hostname := "localhost"
        checksRun := 55
        checksPassed := 50
        checksFailed := 0
        findings := []
        riskScore := 0 }
    customChecks := []
    errors := [] }

/-- A 600-character evidence string. -/
def longEvidence : String := String.mk (List.replicate 600 'a')

/-- Appending to a common prefix is injective on strings. -/
theorem string_append_cancel_iff (p a b : String) : p ++ a = p ++ b ↔ a = b := by
  constructor
  · intro h
    have hd := congrArg String.data h
    simp [String.data_append] at hd
    exact String.ext hd
  · intro h
    rw [h]

/-- The dedup key `source::checkId` determines and is determined by the
`(source, checkId)` pair: the two source tags are distinct strings, so
the keys of distinct sources can never collide. -/
theorem makeFindingKey_eq_iff (f g : NormalizedFinding) :
    makeFindingKey f = makeFindingKey g ↔ f.source = g.source ∧ f.checkId = g.checkId := by
  cases hf : f.source <;> cases hg : g.source <;>
    simp [makeFindingKey, hf, hg, Source.str, String.append_assoc]
  · exact string_append_cancel_iff "secureclaw::" f.checkId g.checkId
  · intro h
    have hd := congrArg String.data h
    simp [String.data_append] at hd
  · intro h
    have hd := congrArg String.data h
    simp [String.data_append] at hd
  · exact string_append_cancel_iff "custom::" f.checkId g.checkId

/-- Key-set membership used by the differ, rephrased as existence of a
finding with the same `(source, checkId)`. -/
theorem contains_key_iff (l : List NormalizedFinding) (f : NormalizedFinding) :
    ((l.map makeFindingKey).contains (makeFindingKey f) = true) ↔
    ∃ q ∈ l, q.source = f.source ∧ q.checkId = f.checkId := by
  have hc : ((l.map makeFindingKey).contains (makeFindingKey f) = true) ↔
      makeFindingKey f ∈ l.map makeFindingKey := List.elem_iff
  rw [hc, List.mem_map]
  constructor
  · rintro ⟨q, hq, hkey⟩
    exact ⟨q, hq, (makeFindingKey_eq_iff q f).mp hkey⟩
  · rintro ⟨q, hq, hsrc, hid⟩
    exact ⟨q, hq, (makeFindingKey_eq_iff q f).mpr ⟨hsrc, hid⟩⟩

/-- The count-times-weight formula of `computeRiskScore` is the sum of
the per-finding severity weights. -/
theorem weight_count_sum (l : List NormalizedFinding) :
    (l.filter (fun f => decide (f.severity = Severity.critical))).length * 25 +
    (l.filter (fun f => decide (f.severity = Severity.high))).length * 10 +
    (l.filter (fun f => decide (f.severity = Severity.medium))).length * 3 +
    (l.filter (fun f => decide (f.severity = Severity.low))).length * 1 =
    (l.map (fun f => severityWeight f.severity)).sum := by
  induction l with
  | nil => rfl
  | cons x xs ih =>
    cases hx : x.severity <;>
      simp [List.filter_cons, hx, severityWeight] at ih ⊢ <;> omega

/-- C5: with no previous run, `compute` classifies every failing current
finding as new, leaves `resolvedFindings` and `persistingFindings` empty,
and reports the absolute current score as the delta. -/
theorem diff_no_previous_baseline (id : String) (F : List NormalizedFinding) (s : Int) :
    (compute id F s none).newFindings = failedFindings F ∧
    (compute id F s none).resolvedFindings = [] ∧
    (compute id F s none).persistingFindings = [] ∧
    (compute id F s none).riskScoreDelta = s :=
  ⟨rfl, rfl, rfl, rfl⟩

/-- C5 witness: concrete instance of the no-previous-run baseline. -/
theorem diff_no_previous_baseline_witness :
    (compute "a1" [sampleCritical] 25 none).newFindings = failedFindings [sampleCritical] ∧
    (compute "a1" [sampleCritical] 25 none).resolvedFindings = [] ∧
    (compute "a1" [sampleCritical] 25 none).persistingFindings = [] ∧
    (compute "a1" [sampleCritical] 25 none).riskScoreDelta = 25 :=
  diff_no_previous_baseline "a1" [sampleCritical] 25

/-- C3: `computeRiskScore` equals the severity-weight sum (critical=25,
high=10, medium=3, low=1, info=0) over failing findings, clamped at 100;
it never exceeds 100; the empty list scores 0; one failing critical
scores 25; five failing criticals clamp to 100, not 125. -/
theorem risk_score_weighted_clamped_sum (fs : List NormalizedFinding) :
    computeRiskScore fs =
      min 100 (((fs.filter (fun f => !f.passed)).map
        (fun f => severityWeight f.severity)).sum) ∧
    computeRiskScore fs ≤ 100 ∧
    computeRiskScore [] = 0 ∧
    computeRiskScore [sampleCritical] = 25 ∧
    computeRiskScore (List.replicate 5 sampleCritical) = 100 := by
  refine ⟨?_, ?_, rfl, rfl, rfl⟩
  · exact congrArg (min 100) (weight_count_sum (fs.filter (fun f => !f.passed)))
  · exact Nat.min_le_left 100 _

/-- C2: the diff partitions the current run's failing findings — no
finding is both new and persisting, a finding is new-or-persisting
exactly when it is a failing finding of the current run, and every
finding in any diff bucket is failing. -/
theorem diff_partition (id : String) (cur : List NormalizedFinding) (s : Int)
    (prev : Option PreviousAuditFindings) :
    (∀ f, ¬(f ∈ (compute id cur s prev).newFindings ∧
        f ∈ (compute id cur s prev).persistingFindings)) ∧
    (∀ f, (f ∈ (compute id cur s prev).newFindings ∨
        f ∈ (compute id cur s prev).persistingFindings) ↔
        f ∈ cur ∧ f.passed = false) ∧
    (∀ f, f ∈ (compute id cur s prev).newFindings ∨
        f ∈ (compute id cur s prev).resolvedFindings ∨
        f ∈ (compute id cur s prev).persistingFindings → f.passed = false) := by
  cases prev with
  | none =>
    refine ⟨fun f => ?_, fun f => ?_, fun f => ?_⟩ <;>
      simp [compute, List.mem_filter]
  | some p =>
    refine ⟨fun f => ?_, fun f => ?_, fun f => ?_⟩
    · simp [compute, List.mem_filter]
      tauto
    · simp [compute, List.mem_filter]
      by_cases hk : ∀ x ∈ p.findings, x.passed = false →
        ¬makeFindingKey x = makeFindingKey f
      · tauto
      · push_neg at hk
        tauto
    · simp [compute, List.mem_filter]
      tauto

/-- C2 witness: concrete instance of the partition law. -/
theorem diff_partition_witness :
    ((sampleCritical ∈ (compute "a2" [sampleCritical] 25 none).newFindings ∨
      sampleCritical ∈ (compute "a2" [sampleCritical] 25 none).persistingFindings) ↔
      sampleCritical ∈ [sampleCritical] ∧ sampleCritical.passed = false) ∧
    ¬(sampleCritical ∈ (compute "a2" [sampleCritical] 25 none).newFindings ∧
      sampleCritical ∈ (compute "a2" [sampleCritical] 25 none).persistingFindings) :=
  ⟨(diff_partition "a2" [sampleCritical] 25 none).2.1 sampleCritical,
   (diff_partition "a2" [sampleCritical] 25 none).1 sampleCritical⟩

/-- C4: diff classification is determined solely by the `(source,
checkId)` key — a current failing finding persists iff some previous
failing finding carries the same source and checkId, is new iff none
does, and a previous failing finding is resolved iff no current failing
finding carries its key; no other field occurs in the conditions. -/
theorem diff_classification_by_key (id : String) (cur : List NormalizedFinding) (s : Int)
    (p : PreviousAuditFindings) (f : NormalizedFinding) :
    (f ∈ (compute id cur s (some p)).persistingFindings ↔
      f ∈ cur ∧ f.passed = false ∧
        ∃ q ∈ p.findings, q.passed = false ∧ q.source = f.source ∧ q.checkId = f.checkId) ∧
    (f ∈ (compute id cur s (some p)).newFindings ↔
      f ∈ cur ∧ f.passed = false ∧
        ¬∃ q ∈ p.findings, q.passed = false ∧ q.source = f.source ∧ q.checkId = f.checkId) ∧
    (f ∈ (compute id cur s (some p)).resolvedFindings ↔
      f ∈ p.findings ∧ f.passed = false ∧
        ¬∃ q ∈ cur, q.passed = false ∧ q.source = f.source ∧ q.checkId = f.checkId) := by
  refine ⟨?_, ?_, ?_⟩ <;>
    simp [compute, List.mem_filter, makeFindingKey_eq_iff] <;>
    tauto

/-- C4 witness: a previous failing finding with the same key but a
different source-tag situation — concrete instance of the key
characterization. -/
theorem diff_classification_by_key_witness :
    sampleCritical ∈ (compute "a3" [sampleCritical] 25
      (some { auditId := "p0", findings := [sampleCritical], hostRiskScore := 25 })).persistingFindings ↔
    sampleCritical ∈ [sampleCritical] ∧ sampleCritical.passed = false ∧
      ∃ q ∈ [sampleCritical], q.passed = false ∧ q.source = sampleCritical.source ∧
        q.checkId = sampleCritical.checkId :=
  (diff_classification_by_key "a3" [sampleCritical] 25
    { auditId := "p0", findings := [sampleCritical], hostRiskScore := 25 } sampleCritical).1

/-- C6: an alert event is emitted iff `newCriticals` is nonempty, and
then it is exactly one event carrying the aggregated message; a critical
finding failing in both runs is classified persisting, stays out of
`newCriticals`, and (by the first conjunct) triggers no alert on its own. -/
theorem alert_exactly_once_on_new_criticals (id : String) (cur : List NormalizedFinding)
    (s : Int) (prev : Option PreviousAuditFindings) :
    (alertEvents (compute id cur s prev) = [] ↔ (compute id cur s prev).newCriticals = []) ∧
    (alertEvents (compute id cur s prev)).length ≤ 1 ∧
    ((compute id cur s prev).newCriticals ≠ [] →
      alertEvents (compute id cur s prev) =
        [{ eventType := "new_critical_finding"
           severity := Severity.critical
           source := "secureclaw"
           sourceId := some (compute id cur s prev).auditId
           message := buildAlertMessage (compute id cur s prev).newCriticals
             (compute id cur s prev).auditId }]) ∧
    (∀ p f, prev = some p → f ∈ cur → f.passed = false →
      f.severity = Severity.critical →
      (∃ q ∈ p.findings, q.passed = false ∧ q.source = f.source ∧ q.checkId = f.checkId) →
      f ∈ (compute id cur s prev).persistingFindings ∧
        f ∉ (compute id cur s prev).newCriticals) := by
  refine ⟨?_, ?_, ?_, ?_⟩
  · by_cases h : (compute id cur s prev).newCriticals = []
    · simp [alertEvents, h]
    · have hl : (compute id cur s prev).newCriticals.length ≠ 0 := by
        simpa [List.length_eq_zero] using h
      simp [alertEvents, hl, h]
  · by_cases hl : (compute id cur s prev).newCriticals.length = 0 <;>
      simp [alertEvents, hl]
  · intro h
    have hl : (compute id cur s prev).newCriticals.length ≠ 0 := by
      simpa [List.length_eq_zero] using h
    simp [alertEvents, hl]
  · rintro p f rfl hin hpf hcrit ⟨q, hq, hqp, hqs, hqc⟩
    constructor
    · simp [compute, List.mem_filter, makeFindingKey_eq_iff]
      tauto
    · simp [compute, List.mem_filter, makeFindingKey_eq_iff]
      tauto

/-- C6 witness: a critical finding failing in both runs is persisting,
not a new critical, and the diff produces no alert event. -/
theorem alert_exactly_once_on_new_criticals_witness :
    sampleCritical ∈ (compute "a4" [sampleCritical] 25
      (some { auditId := "p1", findings := [sampleCritical], hostRiskScore := 25 })).persistingFindings ∧
    sampleCritical ∉ (compute "a4" [sampleCritical] 25
      (some { auditId := "p1", findings := [sampleCritical], hostRiskScore := 25 })).newCriticals :=
  (alert_exactly_once_on_new_criticals "a4" [sampleCritical] 25
    (some { auditId := "p1", findings := [sampleCritical], hostRiskScore := 25 })).2.2.2
    { auditId := "p1", findings := [sampleCritical], hostRiskScore := 25 } sampleCritical
    rfl (by simp) rfl rfl
    ⟨sampleCritical, by simp, rfl, rfl, rfl⟩

/-- C7 counterexample: the empty evidence string has at most 500
characters yet is not returned unchanged — the JavaScript falsiness test
`if (!evidence)` maps it to `undefined`. -/
theorem truncate_empty_evidence_dropped :
    ("" : String).length ≤ 500 ∧
    truncateEvidence (some "") ≠ some "" ∧
    truncateEvidence (some "") = none := by
  refine ⟨by decide, by simp [truncateEvidence], rfl⟩

/-- C7 amended: absent evidence stays absent, the empty string becomes
absent, a nonempty string of at most 500 characters is unchanged, and a
longer string is cut to its first 500 characters with the fixed marker
appended. -/
theorem truncate_evidence_amended :
    truncateEvidence none = none ∧
    truncateEvidence (some "") = none ∧
    (∀ s : String, s ≠ "" → s.length ≤ 500 → truncateEvidence (some s) = some s) ∧
    (∀ s : String, 500 < s.length →
      truncateEvidence (some s) = some (s.take 500 ++ "…[truncated]") ∧
      (s.take 500).length = 500) := by
  refine ⟨rfl, rfl, ?_, ?_⟩
  · intro s hne hlen
    simp [truncateEvidence, EVIDENCE_MAX_CHARS, hne, hlen]
  · intro s hlen
    have hne : s ≠ "" := by
      intro hs
      rw [hs] at hlen
      exact absurd hlen (by decide)
    have hdata : s.length = s.data.length := rfl
    refine ⟨?_, ?_⟩
    · simp [truncateEvidence, EVIDENCE_MAX_CHARS, hne]
      omega
    · rw [String.take_eq]
      show (s.data.take 500).length = 500
      rw [List.length_take]
      omega

/-- C7 witness: a 600-character string is truncated to 500 characters
plus the marker; a short nonempty string is unchanged. -/
theorem truncate_evidence_amended_witness :
    truncateEvidence (some longEvidence) =
      some (longEvidence.take 500 ++ "…[truncated]") ∧
    (longEvidence.take 500).length = 500 ∧
    truncateEvidence (some "ab") = some "ab" := by
  have hlen : 500 < longEvidence.length := by
    show 500 < (List.replicate 600 'a').length
    simp
  refine ⟨(truncate_evidence_amended.2.2.2 longEvidence hlen).1,
    (truncate_evidence_amended.2.2.2 longEvidence hlen).2,
    truncate_evidence_amended.2.2.1 "ab" (by decide) (by decide)⟩

/-- C1: evaluating the category inference at a finding whose ID is off
the ID table and whose `owaspMapping` is `"ASI99"`: the shape test
(`startsWith("ASI")`, length ≤ 5) accepts it and the unchecked cast lets
`"ASI99"` through, which is not one of the 10 fixed categories — the
normalized finding also gets no `owaspName` from the name table. -/
theorem owasp_inference_escapes_categories :
    inferOWASPFromSecureClawFinding unmappedFinding = "ASI99" ∧
    "ASI99" ∉ OWASP_CATEGORIES ∧
    (normalizeSecureClawFinding unmappedFinding).owaspCategory = "ASI99" ∧
    (normalizeSecureClawFinding unmappedFinding).owaspName = none := by
  refine ⟨by decide, by decide, by decide, by decide⟩

/-- C8 counterexample: the mock-shaped envelope reports 55 checks run
and 50 passed while the parsed findings list is empty, so `checksRun` is
not the number of normalized findings and `checksPassed` is not the
number of passed findings. -/
theorem aggregates_use_scanner_envelope :
    (buildSummary sampleEnvelope).checksRun = 55 ∧
    (buildSummary sampleEnvelope).checksPassed = 50 ∧
    (parse sampleEnvelope).length = 0 ∧
    ((parse sampleEnvelope).filter (fun f => f.passed)).length = 0 :=
  ⟨rfl, rfl, rfl, rfl⟩

/-- C8 amended: `hostRiskScore` and the per-severity counts are
recomputations over the run's normalized findings (per-severity counts
over its failing findings) and `checksFailed = checksRun - checksPassed`,
but `checksRun`/`checksPassed` come from the scanner's self-reported
envelope totals plus the custom-check results, not from the findings
list. -/
theorem summary_aggregates_amended (raw : RawAuditOutput) :
    (buildSummary raw).hostRiskScore = computeRiskScore (parse raw) ∧
    (buildSummary raw).criticalCount = countBySeverity (parse raw) Severity.critical ∧
    (buildSummary raw).highCount = countBySeverity (parse raw) Severity.high ∧
    (buildSummary raw).mediumCount = countBySeverity (parse raw) Severity.medium ∧
    (buildSummary raw).lowCount = countBySeverity (parse raw) Severity.low ∧
    (buildSummary raw).infoCount = countBySeverity (parse raw) Severity.info ∧
    (buildSummary raw).checksFailed =
      (buildSummary raw).checksRun - (buildSummary raw).checksPassed ∧
    (buildSummary raw).checksRun = getTotalChecksRun raw ∧
    (buildSummary raw).checksPassed = getTotalChecksPassed raw :=
  ⟨rfl, rfl, rfl, rfl, rfl, rfl, rfl, rfl, rfl⟩

/-- C9: the CLI exit codes evaluated — fatal error exits 1, new
criticals outside dry-run exit 2, dry-run and clean runs exit 0; but a
run with a non-empty non-fatal error list also exits 0, the very same
code as a clean run, so pipeline errors are not distinguished. -/
theorem cli_exit_code_eval :
    cliExitCode true false 0 0 = 1 ∧
    cliExitCode false false 3 0 = 2 ∧
    cliExitCode false true 3 0 = 0 ∧
    cliExitCode false false 0 0 = 0 ∧
    cliExitCode false false 0 1 = 0 ∧
    cliExitCode false false 0 1 = cliExitCode false false 0 0 := by
  refine ⟨by decide, by decide, by decide, by decide, by decide, by decide⟩

/-- C10: the reporter flags a persisted failing finding `isNew` exactly
when some finding in `diff.newFindings` has the same `checkId` — the
`source` is ignored — so two failing findings sharing a `checkId` across
different sources are both flagged when either one is new. -/
theorem upsert_isnew_by_checkid_only (aid : String) (fs : List NormalizedFinding)
    (d : AuditDiff) (now : Int) :
    (∀ b ∈ upsertFindingBodies aid fs d now,
      (b.isNew = true ↔ ∃ g ∈ d.newFindings, g.checkId = b.finding.checkId)) ∧
    (∀ f g : NormalizedFinding, f.checkId = g.checkId →
      (mkUpsertBody aid d now f).isNew = (mkUpsertBody aid d now g).isNew) ∧
    (∀ f g : NormalizedFinding, f.checkId = g.checkId → f ∈ d.newFindings →
      (mkUpsertBody aid d now f).isNew = true ∧
      (mkUpsertBody aid d now g).isNew = true) := by
  have hmk : ∀ f : NormalizedFinding, (mkUpsertBody aid d now f).isNew = true ↔
      ∃ g ∈ d.newFindings, g.checkId = f.checkId := by
    intro f
    have hc : ((d.newFindings.map (fun g => g.checkId)).contains f.checkId = true) ↔
        f.checkId ∈ d.newFindings.map (fun g => g.checkId) := List.elem_iff
    simp only [mkUpsertBody]
    rw [hc, List.mem_map]
  refine ⟨?_, ?_, ?_⟩
  · intro b hb
    simp only [upsertFindingBodies, List.mem_map, List.mem_filter] at hb
    obtain ⟨f, _, rfl⟩ := hb
    exact hmk f
  · intro f g h
    simp [mkUpsertBody, h]
  · intro f g h hf
    exact ⟨(hmk f).mpr ⟨f, hf, rfl⟩, (hmk g).mpr ⟨f, hf, h⟩⟩

/-- C10 witness: with `SC-020` new under the `secureclaw` source, the
body of the failing `custom`-source finding with the same `checkId` is
also flagged `isNew`. -/
theorem upsert_isnew_by_checkid_only_witness :
    (mkUpsertBody "x1"
      { auditId := "x1", previousAuditId := none, newFindings := [sampleCritical],
        resolvedFindings := [], persistingFindings := [], riskScoreDelta := 0,
        newCriticals := [sampleCritical] } 0 sampleCritical).isNew = true ∧
    (mkUpsertBody "x1"
      { auditId := "x1", previousAuditId := none, newFindings := [sampleCritical],
        resolvedFindings := [], persistingFindings := [], riskScoreDelta := 0,
        newCriticals := [sampleCritical] } 0 sampleCriticalCustom).isNew = true :=
  (upsert_isnew_by_checkid_only "x1" [sampleCritical, sampleCriticalCustom]
    { auditId := "x1", previousAuditId := none, newFindings := [sampleCritical],
      resolvedFindings := [], persistingFindings := [], riskScoreDelta := 0,
      newCriticals := [sampleCritical] } 0).2.2 sampleCritical sampleCriticalCustom
    rfl (by simp)

end SecureClaw

